import Mathlib

/-!
Verification of the calculation module of the Hotel GST Impact Calculator
(`src/app.py`). The module is a set of pure arithmetic formulas over scalar
inputs; we embed them over the rational numbers, which represents the
decimal constants of the source (0.12, 0.05, percentages, currency amounts)
exactly.
-/

namespace HotelGst

/-- `OLD_OUTPUT_GST = 0.12` — old-regime output tax rate (src/app.py line 13). -/
def OLD_OUTPUT_GST : ℚ := 12 / 100

/-- `NEW_OUTPUT_GST = 0.05` — new-regime output tax rate (src/app.py line 14). -/
def NEW_OUTPUT_GST : ℚ := 5 / 100

/-- `GUEST_BREAK_EVEN_PP = ((1 + OLD_OUTPUT_GST) / (1 + NEW_OUTPUT_GST) - 1) * 100`
(src/app.py lines 17-18: defined and then multiplied by 100). -/
def GUEST_BREAK_EVEN_PP : ℚ := ((1 + OLD_OUTPUT_GST) / (1 + NEW_OUTPUT_GST) - 1) * 100

/-- `guest_pay_old(base) = base * (1 + OLD_OUTPUT_GST)` (src/app.py lines 67-68). -/
def guest_pay_old (base : ℚ) : ℚ := base * (1 + OLD_OUTPUT_GST)

/-- `guest_pay_new(base) = base * (1 + NEW_OUTPUT_GST)` (src/app.py lines 70-71). -/
def guest_pay_new (base : ℚ) : ℚ := base * (1 + NEW_OUTPUT_GST)

/-- `profit_old(base, itc_claim_points) = base + base * (itc_claim_points / 100.0)`
(src/app.py lines 73-74). -/
def profit_old (base itc_claim_points : ℚ) : ℚ :=
  base + base * (itc_claim_points / 100)

/-- `profit_new(base_new) = base_new` (src/app.py lines 76-77). -/
def profit_new (base_new : ℚ) : ℚ := base_new

/-- `neutral_adr(base_old, itc_claim_points) = base_old * (1 + itc_claim_points / 100.0)`
(src/app.py lines 79-80). -/
def neutral_adr (base_old itc_claim_points : ℚ) : ℚ :=
  base_old * (1 + itc_claim_points / 100)

/-- `chosen_base = max(0.0, old_profit - absorb_rupees)` where
`old_profit = profit_old(base_adr, itc_claim_pp)` (src/app.py lines 85, 90),
viewed as a function of the three inputs. -/
def chosen_base (base_adr itc_claim_pp absorb_rupees : ℚ) : ℚ :=
  max 0 (profit_old base_adr itc_claim_pp - absorb_rupees)

/-- `guest_delta_chosen = guest_new_chosen - guest_old` where
`guest_new_chosen = guest_pay_new(chosen_base)` and
`guest_old = guest_pay_old(base_adr)` (src/app.py lines 93-95). -/
def guest_delta_chosen (base_adr itc_claim_pp absorb_rupees : ℚ) : ℚ :=
  guest_pay_new (chosen_base base_adr itc_claim_pp absorb_rupees) - guest_pay_old base_adr

/-- `adr_uplift_pct_neutral = (neutral_base / base_adr - 1) * 100` where
`neutral_base = neutral_adr(base_adr, itc_claim_pp)` (src/app.py lines 86, 97). -/
def adr_uplift_pct_neutral (base_adr itc_claim_pp : ℚ) : ℚ :=
  (neutral_adr base_adr itc_claim_pp / base_adr - 1) * 100

/-- The chart series (src/app.py lines 133-134):
`slabs = list(range(0, 13))` and
`y_vals = [guest_pay_new(max(0.0, profit_old(base_adr, pp) - absorb_rupees)) for pp in slabs]`. -/
def sweepGuestPayNew (base_adr absorb_rupees : ℚ) : List ℚ :=
  (List.range 13).map
    (fun (pp : ℕ) => guest_pay_new (max 0 (profit_old base_adr (pp : ℚ) - absorb_rupees)))

/-! ## Helper lemmas -/

/-- The chart series always has 13 points (one per slab value 0..12). -/
lemma sweepGuestPayNew_length (b a : ℚ) : (sweepGuestPayNew b a).length = 13 := by
  rw [sweepGuestPayNew, List.length_map, List.length_range]

/-- The `i`-th chart point is the guest-payable value at the chosen rate for slab `i`. -/
lemma sweepGuestPayNew_getD (b a : ℚ) (i : ℕ) (hi : i < 13) :
    (sweepGuestPayNew b a).getD i 0 = guest_pay_new (chosen_base b (i : ℚ) a) := by
  have hl : i < (sweepGuestPayNew b a).length := by rw [sweepGuestPayNew_length]; exact hi
  rw [List.getD_eq_getElem _ _ hl]
  simp only [sweepGuestPayNew, List.getElem_map, List.getElem_range, chosen_base]

/-- The break-even constant evaluates to the exact rational `20/3`. -/
lemma GUEST_BREAK_EVEN_PP_eq : GUEST_BREAK_EVEN_PP = 20 / 3 := by
  norm_num [GUEST_BREAK_EVEN_PP, OLD_OUTPUT_GST, NEW_OUTPUT_GST]

/-! ## Claim theorems -/

/-- C1: for every baseRate, creditOffsetPoints and absorptionAmount, the chosen
rate equals `max 0 (profit_old base pp - absorption)` and is never negative. -/
theorem c1_chosen_rate_clamped (b pp a : ℚ) :
    chosen_base b pp a = max 0 (profit_old b pp - a) ∧ 0 ≤ chosen_base b pp a :=
  ⟨rfl, le_max_left 0 _⟩

/-- C2: for every base ≥ 0 and offsetPoints in [0,12], the margin-neutral rate
equals the old-regime profit proxy. -/
theorem c2_neutral_eq_profit_old (b pp : ℚ) (hb : 0 ≤ b) (h0 : 0 ≤ pp) (h12 : pp ≤ 12) :
    neutral_adr b pp = profit_old b pp := by
  rw [neutral_adr, profit_old]; ring

theorem c2_neutral_eq_profit_old_witness : neutral_adr 6000 3 = profit_old 6000 3 :=
  c2_neutral_eq_profit_old 6000 3 (by norm_num) (by norm_num) (by norm_num)

/-- C3: for every base ≥ 0, `guest_pay_old base = 1.12 * base` and
`guest_pay_new base = 1.05 * base` (exactly, hence within any tolerance). -/
theorem c3_guest_pay_formulas (b : ℚ) (hb : 0 ≤ b) :
    guest_pay_old b = 112 / 100 * b ∧ guest_pay_new b = 105 / 100 * b := by
  constructor
  · rw [guest_pay_old, OLD_OUTPUT_GST]; ring
  · rw [guest_pay_new, NEW_OUTPUT_GST]; ring

theorem c3_guest_pay_formulas_witness :
    guest_pay_old 100 = 112 / 100 * 100 ∧ guest_pay_new 100 = 105 / 100 * 100 :=
  c3_guest_pay_formulas 100 (by norm_num)

/-- C4: the chart sweep has exactly 13 elements, one per integer offsetPoints
0..12 in ascending index order, and the element at index `pp` equals
`guest_pay_new (chosen_base base pp absorption)`. -/
theorem c4_sweep_shape (b a : ℚ) (pp : ℕ) (hpp : pp < 13) :
    (sweepGuestPayNew b a).length = 13 ∧
      (sweepGuestPayNew b a).getD pp 0 = guest_pay_new (chosen_base b (pp : ℚ) a) :=
  ⟨sweepGuestPayNew_length b a, sweepGuestPayNew_getD b a pp hpp⟩

theorem c4_sweep_shape_witness :
    (sweepGuestPayNew 6000 0).length = 13 ∧
      (sweepGuestPayNew 6000 0).getD 3 0 = guest_pay_new (chosen_base 6000 (3 : ℕ) 0) :=
  c4_sweep_shape 6000 0 3 (by norm_num)

/-- C5: for fixed base ≥ 0 and offsetPoints in [0,12], the chosen rate is
monotonically non-increasing in the absorption amount over [-5000, 5000]
and never drops below 0. -/
theorem c5_chosen_rate_antitone (b pp a₁ a₂ : ℚ) (hb : 0 ≤ b) (h0 : 0 ≤ pp)
    (h12 : pp ≤ 12) (hlo : -5000 ≤ a₁) (hle : a₁ ≤ a₂) (hhi : a₂ ≤ 5000) :
    chosen_base b pp a₂ ≤ chosen_base b pp a₁ ∧ 0 ≤ chosen_base b pp a₂ := by
  refine ⟨max_le_max le_rfl ?_, le_max_left 0 _⟩
  linarith

theorem c5_chosen_rate_antitone_witness :
    chosen_base 6000 3 200 ≤ chosen_base 6000 3 0 ∧ 0 ≤ chosen_base 6000 3 200 :=
  c5_chosen_rate_antitone 6000 3 0 200 (by norm_num) (by norm_num) (by norm_num)
    (by norm_num) (by norm_num) (by norm_num)

/-- C6: whenever the absorption exceeds the old-regime profit, the chosen rate
is exactly 0 and the new guest payable at that rate is exactly 0; in
particular at base = 1000, offsetPoints = 0, absorption = 5000. -/
theorem c6_absorption_floor (b pp a : ℚ) (h : profit_old b pp < a) :
    chosen_base b pp a = 0 ∧ guest_pay_new (chosen_base b pp a) = 0 ∧
      chosen_base 1000 0 5000 = 0 ∧ guest_pay_new (chosen_base 1000 0 5000) = 0 := by
  have hz : chosen_base b pp a = 0 := by
    rw [chosen_base]; exact max_eq_left (by linarith)
  have hc : chosen_base 1000 0 5000 = 0 := by
    rw [chosen_base]
    norm_num [profit_old]
  exact ⟨hz, by rw [hz, guest_pay_new]; ring, hc, by rw [hc, guest_pay_new]; ring⟩

theorem c6_absorption_floor_witness :
    chosen_base 1000 0 5000 = 0 ∧ guest_pay_new (chosen_base 1000 0 5000) = 0 ∧
      chosen_base 1000 0 5000 = 0 ∧ guest_pay_new (chosen_base 1000 0 5000) = 0 :=
  c6_absorption_floor 1000 0 5000 (by norm_num [profit_old])

/-- C7: the break-even constant is within 1e-3 of 6.6667, and at
offsetPoints = GUEST_BREAK_EVEN_PP with absorption = 0, the new guest payable
at the chosen rate equals the old guest payable exactly (hence within 1e-6
relative) for every base ≥ 0. -/
theorem c7_break_even (b : ℚ) (hb : 0 ≤ b) :
    |GUEST_BREAK_EVEN_PP - 66667 / 10000| < 1 / 1000 ∧
      guest_pay_new (chosen_base b GUEST_BREAK_EVEN_PP 0) = guest_pay_old b := by
  constructor
  · rw [GUEST_BREAK_EVEN_PP_eq, abs_sub_lt_iff]
    norm_num
  · rw [GUEST_BREAK_EVEN_PP_eq, chosen_base, profit_old]
    have hnn : (0 : ℚ) ≤ b + b * (20 / 3 / 100) - 0 := by nlinarith
    rw [max_eq_right hnn, guest_pay_new, guest_pay_old, NEW_OUTPUT_GST, OLD_OUTPUT_GST]
    ring

theorem c7_break_even_witness :
    |GUEST_BREAK_EVEN_PP - 66667 / 10000| < 1 / 1000 ∧
      guest_pay_new (chosen_base 6000 GUEST_BREAK_EVEN_PP 0) = guest_pay_old 6000 :=
  c7_break_even 6000 (by norm_num)

/-- C8: for base = 6000, offsetPoints = 3, absorption = 0, the outputs are
profitOld = 6180, neutralRate = 6180, chosenRate = 6180, guestPayOld = 6720,
guestPayNew = 6489 and guestDelta = -231. -/
theorem c8_example_scenario :
    profit_old 6000 3 = 6180 ∧ neutral_adr 6000 3 = 6180 ∧
      chosen_base 6000 3 0 = 6180 ∧ guest_pay_old 6000 = 6720 ∧
      guest_pay_new (chosen_base 6000 3 0) = 6489 ∧
      guest_delta_chosen 6000 3 0 = -231 := by
  norm_num [profit_old, neutral_adr, chosen_base, guest_pay_old, guest_pay_new,
    guest_delta_chosen, OLD_OUTPUT_GST, NEW_OUTPUT_GST]

/-- C9: for every base > 0 and offsetPoints in [0,12], the neutral ADR uplift
percentage `(neutral_adr / base - 1) * 100` equals offsetPoints exactly. -/
theorem c9_adr_uplift_neutral (b pp : ℚ) (hb : 0 < b) (h0 : 0 ≤ pp) (h12 : pp ≤ 12) :
    adr_uplift_pct_neutral b pp = pp := by
  rw [adr_uplift_pct_neutral, neutral_adr]
  field_simp
  ring

theorem c9_adr_uplift_neutral_witness : adr_uplift_pct_neutral 6000 3 = 3 :=
  c9_adr_uplift_neutral 6000 3 (by norm_num) (by norm_num) (by norm_num)

/-- C10: for every base, absorption and integer offsetPoints in [0,12], the
highlighted point `guest_pay_new (chosen_base base pp absorption)` equals the
chart element of the sweep at index pp: the current selection lies on the curve. -/
theorem c10_tile_on_curve (b a : ℚ) (pp : ℕ) (hpp : pp ≤ 12) :
    guest_pay_new (chosen_base b (pp : ℚ) a) = (sweepGuestPayNew b a).getD pp 0 :=
  (sweepGuestPayNew_getD b a pp (by omega)).symm

theorem c10_tile_on_curve_witness :
    guest_pay_new (chosen_base 6000 (3 : ℕ) 0) = (sweepGuestPayNew 6000 0).getD 3 0 :=
  c10_tile_on_curve 6000 0 3 (by norm_num)

end HotelGst
